import Mathlib

/-!
Shallow embedding of the authentication subsystem of the
`teamdeck-tracker-api` repository (Rust), covering:

* `src/auth/token.rs` — JWT claims, access/refresh token issuance and
  verification (`jsonwebtoken` v7 semantics with `Validation::default()`);
* `src/auth/guard.rs` — the request guard;
* `src/auth/google.rs` — Google identity extraction from an id token
  (non-verifying decode);
* `src/auth.rs` — the `login_with_google` mutation;
* `src/main.rs` — bearer-token extraction at the HTTP boundary.

JWT tokens are modelled symbolically: a well-formed token is a header
algorithm, a JSON payload and a signature; HMAC-SHA256 is idealized as a
collision-free MAC (the signature value is the pair of the key and the
signed message). Environment configuration (the two signing secrets) is
passed explicitly, and the current time is an explicit parameter in
seconds since the Unix epoch.
-/

namespace TeamdeckTracker

/-- JSON values, the model of the serde_json payloads that the JWTs in the
source carry. Numbers are the `u64` values that appear in the claims. An
object is `jobj` applied to a field list, and a field list is spelled
with the `fnil`/`fcons` constructors (a flat encoding so that equality
of payloads stays decidable by derivation). -/
inductive Json where
  | jstr : String → Json
  | jnum : Nat → Json
  | jbool : Bool → Json
  | jnull : Json
  | fnil : Json
  | fcons : String → Json → Json → Json
  | jobj : Json → Json
deriving DecidableEq

/-- Lookup in an object's field list (first occurrence, as serde reads
maps). -/
def Json.lookupFields (fields : Json) (key : String) : Option Json :=
  match fields with
  | .fcons k v rest => if k = key then some v else rest.lookupFields key
  | _ => none

/-- Field lookup in a JSON object; `none` on non-objects or missing
fields. -/
def Json.lookupField (j : Json) (key : String) : Option Json :=
  match j with
  | .jobj fields => fields.lookupFields key
  | _ => none

/-- JWT signing algorithms relevant to the source: `Header::default()` uses
HS256, and `Validation::default()` accepts only HS256. -/
inductive Alg where
  | HS256
  | RS256
deriving DecidableEq

/-- Symbolic HMAC output: the signature over a JWT message (header
algorithm plus payload) under a secret key. Modelled as the key and the
message themselves, i.e. an idealized collision-free MAC. -/
structure Sig where
  key : String
  alg : Alg
  payload : Json
deriving DecidableEq

/-- Symbolic HMAC signing of the JWT message under `key`. -/
def hmac_sign (key : String) (alg : Alg) (payload : Json) : Sig :=
  ⟨key, alg, payload⟩

/-- A token string: either a well-formed JWT (decodable header, payload
and signature parts) or any other string (`malformed`), which fails the
initial split/base64/header parsing of `jsonwebtoken::decode`. -/
inductive TokenStr where
  | jwt (alg : Alg) (payload : Json) (sig : Sig)
  | malformed (s : String)
deriving DecidableEq

/-- Process configuration: the two signing secrets read from
`JWT_ACCESS_TOKEN_SECRET` and `JWT_REFRESH_TOKEN_SECRET`. -/
structure Env where
  jwt_access_token_secret : String
  jwt_refresh_token_secret : String
deriving DecidableEq

/-- Error kinds of the `jsonwebtoken` v7 library reachable from the
decode pipeline used by the source. -/
inductive JwtError where
  | invalidToken
  | invalidAlgorithm
  | invalidSignature
  | jsonError
  | expiredSignature
deriving DecidableEq

/-- `Validation::default().algorithms` in jsonwebtoken v7 is `[HS256]`. -/
def validationAlgorithms : List Alg := [Alg.HS256]

/-- The claims validation performed by `jsonwebtoken::decode` with
`Validation::default()` (jsonwebtoken v7): `validate_exp = true`,
`leeway = 0`, no nbf/iss/sub/aud checks. A missing `exp` claim fails with
`ExpiredSignature`; a non-numeric `exp` fails `from_value::<u64>`; a
numeric `exp` fails exactly when `exp < now`. -/
def jwt_validate (now : Nat) (payload : Json) : Except JwtError Unit :=
  match payload.lookupField "exp" with
  | some (.jnum e) => if e < now then .error .expiredSignature else .ok ()
  | some _ => .error .jsonError
  | none => .error .expiredSignature

/-- `jsonwebtoken::encode` with `Header::default()` (HS256): serializes
the claims and signs with the secret. HMAC signing of a serializable
value cannot fail, so encoding is total in the model. -/
def jwt_encode (secret : String) (payload : Json) : TokenStr :=
  .jwt .HS256 payload (hmac_sign secret .HS256 payload)

/-- `jsonwebtoken::decode::<T>` (v7) with `Validation::default()`:
split/parse the token, check the header algorithm against the allowed
list, verify the signature, deserialize the claims (`deser` plays the
role of serde for `T`), then run claims validation. -/
def jwt_decode {α : Type} (deser : Json → Option α) (secret : String)
    (now : Nat) (tok : TokenStr) : Except JwtError α :=
  match tok with
  | .malformed _ => .error .invalidToken
  | .jwt alg payload sig =>
    if alg ∈ validationAlgorithms then
      if sig = hmac_sign secret alg payload then
        match deser payload with
        | none => .error .jsonError
        | some c =>
          match jwt_validate now payload with
          | .error e => .error e
          | .ok _ => .ok c
      else .error .invalidSignature
    else .error .invalidAlgorithm

/-- `jsonwebtoken::dangerous_insecure_decode::<T>` (v7): parses the
header and claims parts and deserializes the claims; performs no
signature verification and no claims validation. -/
def dangerous_insecure_decode {α : Type} (deser : Json → Option α)
    (tok : TokenStr) : Except JwtError α :=
  match tok with
  | .malformed _ => .error .invalidToken
  | .jwt _ payload _ =>
    match deser payload with
    | none => .error .jsonError
    | some c => .ok c

/-- `ResourceId` newtype from `src/auth/token.rs`: `pub struct
ResourceId(pub u64)`. -/
structure ResourceId where
  val : Nat
deriving DecidableEq

/-- `TokenError` from `src/auth/token.rs`, with the wrapped
`jsonwebtoken::errors::Error` source. -/
inductive TokenError where
  | encodingError (source : JwtError)
  | decodingError (source : JwtError)
deriving DecidableEq

/-- `Claims` from `src/auth/token.rs`: `{sub, iat, exp (optional,
skipped when absent), resource_id}`. -/
structure Claims where
  sub : String
  iat : Nat
  exp : Option Nat
  resource_id : ResourceId
deriving DecidableEq

/-- Serde serialization of `Claims`: fields in declaration order, `exp`
omitted when `None` (`skip_serializing_if = "Option::is_none"`). -/
def Claims.toJson (c : Claims) : Json :=
  .jobj (.fcons "sub" (.jstr c.sub) (.fcons "iat" (.jnum c.iat)
    (match c.exp with
     | some e =>
       .fcons "exp" (.jnum e) (.fcons "resource_id" (.jnum c.resource_id.val) .fnil)
     | none => .fcons "resource_id" (.jnum c.resource_id.val) .fnil)))

/-- Serde deserialization of `Claims` from a JSON payload: requires an
object with string `sub`, numeric `iat` and `resource_id`; `exp` is an
`Option<u64>`, so a missing or null `exp` yields `none` and a
non-numeric `exp` fails. -/
def Claims.fromJson (j : Json) : Option Claims :=
  match j with
  | .jobj _ =>
    match j.lookupField "sub", j.lookupField "iat", j.lookupField "resource_id" with
    | some (.jstr sub), some (.jnum iat), some (.jnum rid) =>
      match j.lookupField "exp" with
      | none => some ⟨sub, iat, none, ⟨rid⟩⟩
      | some .jnull => some ⟨sub, iat, none, ⟨rid⟩⟩
      | some (.jnum e) => some ⟨sub, iat, some e, ⟨rid⟩⟩
      | some _ => none
    | _, _, _ => none
  | _ => none

/-- `Token::encode_claims` (trait default method in `src/auth/token.rs`):
encode the claims under the implementor's secret. -/
def Token.encode_claims (secret : String) (c : Claims) : TokenStr :=
  jwt_encode secret c.toJson

/-- `Token::decode_claims` (trait default method in `src/auth/token.rs`):
decode with `Validation::default()` under the implementor's secret,
collapsing every library failure into `TokenError::DecodingError`. -/
def Token.decode_claims (secret : String) (now : Nat) (tok : TokenStr) :
    Except TokenError Claims :=
  match jwt_decode Claims.fromJson secret now tok with
  | .error e => .error (.decodingError e)
  | .ok c => .ok c

/-- `AccessToken` from `src/auth/token.rs`: verified access claims. -/
structure AccessToken where
  claims : Claims
deriving DecidableEq

/-- `AccessToken::secret`: the `JWT_ACCESS_TOKEN_SECRET` value. -/
def AccessToken.secret (env : Env) : String :=
  env.jwt_access_token_secret

/-- `AccessToken::expiration_time`: seven days, in seconds. -/
def AccessToken.expiration_time : Option Nat :=
  some (60 * 60 * 24 * 7)

/-- `AccessToken::encode`: encode the held claims with the access
secret. -/
def AccessToken.encode (env : Env) (t : AccessToken) : TokenStr :=
  Token.encode_claims (AccessToken.secret env) t.claims

/-- `AccessToken::verify`: decode the token string against the access
secret (with default validation at the current time) and wrap the
claims. -/
def AccessToken.verify (env : Env) (now : Nat) (tok : TokenStr) :
    Except TokenError AccessToken :=
  match Token.decode_claims (AccessToken.secret env) now tok with
  | .error e => .error e
  | .ok c => .ok ⟨c⟩

/-- `AccessToken::resource_id`: accessor on the verified claims. -/
def AccessToken.resource_id (t : AccessToken) : ResourceId :=
  t.claims.resource_id

/-- `RefreshToken` from `src/auth/token.rs`. -/
structure RefreshToken where
  claims : Claims
deriving DecidableEq

/-- `RefreshToken::secret`: the `JWT_REFRESH_TOKEN_SECRET` value. -/
def RefreshToken.secret (env : Env) : String :=
  env.jwt_refresh_token_secret

/-- `RefreshToken::expiration_time`: the trait default, `None`. -/
def RefreshToken.expiration_time : Option Nat :=
  none

/-- `RefreshToken::encode`: encode the held claims with the refresh
secret. -/
def RefreshToken.encode (env : Env) (t : RefreshToken) : TokenStr :=
  Token.encode_claims (RefreshToken.secret env) t.claims

/-- `TokenResponse` from `src/auth/token.rs`: the wire-level session
object. -/
structure TokenResponse where
  access_token : TokenStr
  refresh_token : TokenStr
  expires_in : Nat
deriving DecidableEq

/-- `TokenResponse::with_user_data`: capture `issued_at` (current Unix
time in whole seconds; the TTL is integral so subsecond truncation
cancels), build access claims with `exp = issued_at + TTL` and refresh
claims identical except `exp = None`, and encode each with its kind's
secret. Signing cannot fail in the model, so the `Result` is always
`Ok`. -/
def TokenResponse.with_user_data (env : Env) (now : Nat) (email : String)
    (resource_id : ResourceId) : TokenResponse :=
  let issued_at := now
  let expires_in := AccessToken.expiration_time.getD 0
  let access_token_claims : Claims :=
    { sub := email, iat := issued_at, exp := some (issued_at + expires_in),
      resource_id := resource_id }
  let refresh_token_claims : Claims := { access_token_claims with exp := none }
  { access_token := AccessToken.encode env ⟨access_token_claims⟩
  , refresh_token := RefreshToken.encode env ⟨refresh_token_claims⟩
  , expires_in := expires_in }

/-- `AuthError` from `src/auth/guard.rs`: the single guard error. -/
inductive AuthError where
  | invalidAccessToken
deriving DecidableEq

/-- The request context seen by the guard: the data that the HTTP
boundary (`index` in `src/main.rs`) may have attached — a verified
`AccessToken` and the extracted `ResourceId`. `ctx.data_opt::<T>()` is
the corresponding field. -/
structure GqlContext where
  access_token : Option AccessToken
  resource_id : Option ResourceId
deriving DecidableEq

/-- `AccessTokenAuthGuard::check` from `src/auth/guard.rs`: succeed when
both a verified `AccessToken` and a `ResourceId` are attached to the
context, otherwise fail with `AuthError::InvalidAccessToken`. -/
def AccessTokenAuthGuard.check (ctx : GqlContext) : Except AuthError Unit :=
  if ctx.access_token.isSome && ctx.resource_id.isSome then
    .ok ()
  else
    .error .invalidAccessToken

/-- `EXPECTED_DOMAIN` from `src/auth/google.rs`. -/
def EXPECTED_DOMAIN : String := "moodup.team"

/-- `GoogleAuthError` from `src/auth/google.rs`. -/
inductive GoogleAuthError where
  | tokenDecodeError (source : JwtError)
  | idTokenMissing
  | emailNotVerified (email : String)
  | invalidDomain (expected found : String)
deriving DecidableEq

/-- `GoogleTokenResponse` from `src/auth/google.rs`: only the optional
`id_token` field is deserialized. -/
structure GoogleTokenResponse where
  id_token : Option TokenStr
deriving DecidableEq

/-- `GoogleIdTokenClaims` from `src/auth/google.rs`: `email`,
`email_verified`, and `domain` (deserialized from the `hd` field). -/
structure GoogleIdTokenClaims where
  email : String
  email_verified : Bool
  domain : String
deriving DecidableEq

/-- Serde deserialization of `GoogleIdTokenClaims` from a JSON payload:
requires an object with string `email`, boolean `email_verified`, and
string `hd`. -/
def GoogleIdTokenClaims.fromJson (j : Json) : Option GoogleIdTokenClaims :=
  match j with
  | .jobj _ =>
    match j.lookupField "email", j.lookupField "email_verified", j.lookupField "hd" with
    | some (.jstr email), some (.jbool v), some (.jstr hd) => some ⟨email, v, hd⟩
    | _, _, _ => none
  | _ => none

/-- `GoogleTokenResponse::email` from `src/auth/google.rs`: require the
embedded `id_token`, decode its claims with
`jsonwebtoken::dangerous_insecure_decode` (no signature verification),
then check the `email_verified` flag and the `hd` domain against
`EXPECTED_DOMAIN`. -/
def GoogleTokenResponse.email (r : GoogleTokenResponse) :
    Except GoogleAuthError String :=
  match r.id_token with
  | none => .error .idTokenMissing
  | some id_token =>
    match dangerous_insecure_decode GoogleIdTokenClaims.fromJson id_token with
    | .error e => .error (.tokenDecodeError e)
    | .ok claims =>
      if !claims.email_verified then
        .error (.emailNotVerified claims.email)
      else if claims.domain ≠ EXPECTED_DOMAIN then
        .error (.invalidDomain EXPECTED_DOMAIN claims.domain)
      else
        .ok claims.email

/-- The `Display` messages of `GoogleAuthError` (thiserror `#[error]`
strings); `{expected:?}`/`{found:?}` debug-format the strings, i.e.
quote them. -/
def GoogleAuthError.message : GoogleAuthError → String
  | .tokenDecodeError _ => "decoding error"
  | .idTokenMissing =>
      "received token from Google did not include `id_token` field, is your authorization code fresh?"
  | .emailNotVerified email => "email `" ++ email ++ "` is not verified"
  | .invalidDomain expected found =>
      "invalid domain (expected \"" ++ expected ++ "\", found \"" ++ found ++ "\")"

/-- The `Resource` record returned by
`TeamdeckApiClient::get_resource_by_email`; only its `id` (u64) is read
by the login mutation. -/
structure Resource where
  id : Nat
deriving DecidableEq

/-- `AuthMutation::login_with_google` from `src/auth.rs`: exchange the
authorization code (modelled by its outcome, since it is a network call),
extract the verified email from the Google token, look the email up in
the resource directory (also modelled by its outcome), and either issue a
`TokenResponse` or fail with the "no account" message. Errors are
modelled by their `async_graphql::Error` message strings; a `?` on a
typed error converts it via its `Display` message. -/
def login_with_google (env : Env) (now : Nat)
    (exchange_code_for_token : Except String GoogleTokenResponse)
    (get_resource_by_email : String → Except String (Option Resource)) :
    Except String TokenResponse :=
  match exchange_code_for_token with
  | .error e => .error e
  | .ok google_token =>
    match google_token.email with
    | .error e => .error e.message
    | .ok email =>
      match get_resource_by_email email with
      | .error e => .error e
      | .ok (some resource) =>
        .ok (TokenResponse.with_user_data env now email ⟨resource.id⟩)
      | .ok none =>
        .error ("No Teamdeck account found with `" ++ email ++ "` email")

/-- The chunking done by Rust `str::split_whitespace` on a character
list: maximal runs of non-whitespace characters, in order; empty chunks
never occur. `cur` is the reversed chunk currently being read. -/
def split_ws_aux : List Char → List Char → List (List Char)
  | [], cur => if cur.isEmpty then [] else [cur.reverse]
  | c :: rest, cur =>
    if c.isWhitespace then
      if cur.isEmpty then split_ws_aux rest [] else cur.reverse :: split_ws_aux rest []
    else
      split_ws_aux rest (c :: cur)

/-- Rust `str::split_whitespace`, collected into a list of strings. -/
def split_whitespace (s : String) : List String :=
  (split_ws_aux s.data []).map (fun cs => String.mk cs)

/-- `get_token` from `src/main.rs`: when an `Authorization` header is
present, take the last whitespace-separated chunk of its value (the
header value is modelled after `to_str().unwrap_or("")`, so a non-string
value is the empty string); no scheme check is made. -/
def get_token (authorization_header : Option String) : Option String :=
  match authorization_header with
  | some value => (split_whitespace value).getLast?
  | none => none

/-- The context-attachment part of `index` from `src/main.rs`: extract a
bearer chunk with `get_token`, verify it as an access token (`parse`
models reading the chunk string as a token value), and on success attach
the verified token and its resource id to the request context; otherwise
attach nothing. -/
def index (env : Env) (now : Nat) (parse : String → TokenStr)
    (authorization_header : Option String) : GqlContext :=
  let auth_token := get_token authorization_header
  let access_token := auth_token.bind
    (fun t => (AccessToken.verify env now (parse t)).toOption)
  match access_token with
  | some token => { access_token := some token, resource_id := some token.resource_id }
  | none => { access_token := none, resource_id := none }

/-! Helper lemmas. -/

/-- Looking up `exp` in a serialized `Claims` value returns exactly the
serialized `exp` field. -/
theorem Claims.toJson_lookup_exp (c : Claims) :
    (Claims.toJson c).lookupField "exp" = c.exp.map Json.jnum := by
  obtain ⟨sub, iat, exp, ⟨rid⟩⟩ := c
  cases exp <;> rfl

/-- Serde roundtrip for `Claims`: deserializing a serialized claims
value recovers it. -/
theorem Claims.fromJson_toJson (c : Claims) :
    Claims.fromJson (Claims.toJson c) = some c := by
  obtain ⟨sub, iat, exp, ⟨rid⟩⟩ := c
  cases exp <;> rfl

/-- Evaluation of `AccessToken::verify` on the access token produced by
`TokenResponse::with_user_data`: it fails (expired) exactly when the
current time is strictly past `issued_at + TTL`, and otherwise returns
the issued claims. -/
theorem verify_with_user_data_access (env : Env) (email : String)
    (rid : ResourceId) (iat now : Nat) :
    AccessToken.verify env now
        ((TokenResponse.with_user_data env iat email rid).access_token)
      = if iat + 604800 < now then
          .error (TokenError.decodingError .expiredSignature)
        else
          .ok ⟨⟨email, iat, some (iat + 604800), rid⟩⟩ := by
  have hfrom := Claims.fromJson_toJson ⟨email, iat, some (iat + 604800), rid⟩
  have hexp := Claims.toJson_lookup_exp ⟨email, iat, some (iat + 604800), rid⟩
  unfold TokenResponse.with_user_data AccessToken.encode Token.encode_claims
    jwt_encode AccessToken.verify Token.decode_claims jwt_decode jwt_validate
  simp only [AccessToken.expiration_time, Option.getD_some]
  rw [hfrom, hexp]
  by_cases h : iat + 604800 < now
  · simp [validationAlgorithms, h]
  · simp [validationAlgorithms, h]

/-! Claim theorems. -/

/-- Claim C3: for every request context, `AccessTokenAuthGuard::check`
succeeds if and only if both a verified access credential and an
extracted resource identifier are attached to the context; in every
other case it fails with the single error `InvalidAccessToken`, so
success and that one uniform error are the only two observable
outcomes. -/
theorem claim_C3_guard_check (ctx : GqlContext) :
    (AccessTokenAuthGuard.check ctx = .ok () ↔
      ctx.access_token.isSome = true ∧ ctx.resource_id.isSome = true)
    ∧ (AccessTokenAuthGuard.check ctx = .ok () ∨
       AccessTokenAuthGuard.check ctx = .error AuthError.invalidAccessToken) := by
  cases h1 : ctx.access_token.isSome <;> cases h2 : ctx.resource_id.isSome <;>
    simp [AccessTokenAuthGuard.check, h1, h2]

/-- Claim C4: `GoogleTokenResponse::email` depends only on the decoded
payload claims of the embedded id token and not on its signature: two
embedded tokens with identical payloads but arbitrary, possibly
different, signatures (in particular signatures under arbitrary keys)
extract to the same result. -/
theorem claim_C4_email_signature_independent (alg : Alg) (payload : Json)
    (sig1 sig2 : Sig) :
    GoogleTokenResponse.email ⟨some (.jwt alg payload sig1)⟩
      = GoogleTokenResponse.email ⟨some (.jwt alg payload sig2)⟩ := rfl

/-- Claim C6: whenever the embedded id token decodes to claims whose
`email_verified` flag is false, `GoogleTokenResponse::email` fails with
`EmailNotVerified` carrying that email, regardless of the domain
claim. -/
theorem claim_C6_email_not_verified (r : GoogleTokenResponse)
    (tok : TokenStr) (c : GoogleIdTokenClaims)
    (hid : r.id_token = some tok)
    (hdec : dangerous_insecure_decode GoogleIdTokenClaims.fromJson tok = .ok c)
    (hver : c.email_verified = false) :
    r.email = .error (.emailNotVerified c.email) := by
  simp [GoogleTokenResponse.email, hid, hdec, hver]

/-- Witness for claim C6 at a concrete assertion: unverified email with
the correct domain still fails with `EmailNotVerified`. -/
theorem claim_C6_witness :
    GoogleTokenResponse.email
      ⟨some (.jwt .HS256
        (.jobj (.fcons "email" (.jstr "x@moodup.team")
          (.fcons "email_verified" (.jbool false)
            (.fcons "hd" (.jstr "moodup.team") .fnil))))
        ⟨"some-key", .HS256, .jnull⟩)⟩
      = .error (.emailNotVerified "x@moodup.team") :=
  claim_C6_email_not_verified _ _ ⟨"x@moodup.team", false, "moodup.team"⟩ rfl rfl rfl

/-- Claim C7: whenever the embedded id token decodes to claims whose
`email_verified` flag is true but whose domain differs from the
allow-listed `EXPECTED_DOMAIN` ("moodup.team"),
`GoogleTokenResponse::email` fails with `InvalidDomain` reporting the
expected and found domains. -/
theorem claim_C7_invalid_domain (r : GoogleTokenResponse)
    (tok : TokenStr) (c : GoogleIdTokenClaims)
    (hid : r.id_token = some tok)
    (hdec : dangerous_insecure_decode GoogleIdTokenClaims.fromJson tok = .ok c)
    (hver : c.email_verified = true)
    (hdom : c.domain ≠ EXPECTED_DOMAIN) :
    r.email = .error (.invalidDomain EXPECTED_DOMAIN c.domain) := by
  simp [GoogleTokenResponse.email, hid, hdec, hver, hdom]

/-- Witness for claim C7 at a concrete assertion: verified email with a
wrong domain fails with `InvalidDomain`. -/
theorem claim_C7_witness :
    GoogleTokenResponse.email
      ⟨some (.jwt .HS256
        (.jobj (.fcons "email" (.jstr "y@other.example")
          (.fcons "email_verified" (.jbool true)
            (.fcons "hd" (.jstr "other.example") .fnil))))
        ⟨"some-key", .HS256, .jnull⟩)⟩
      = .error (.invalidDomain "moodup.team" "other.example") :=
  claim_C7_invalid_domain _ _ ⟨"y@other.example", true, "other.example"⟩ rfl rfl rfl
    (by decide)

/-- Counterexample to claim C1 as stated: at the concrete current time
100, a well-signed access token whose claims carry `expires_at = 100`
verifies successfully even though the current time is not strictly
before `expires_at` — the default validation of the signing library
fails only when `expires_at` is strictly below the current time. -/
theorem claim_C1_counterexample :
    AccessToken.verify ⟨"access-secret", "refresh-secret"⟩ 100
        (Token.encode_claims "access-secret" ⟨"a@moodup.team", 0, some 100, ⟨1⟩⟩)
      = .ok ⟨⟨"a@moodup.team", 0, some 100, ⟨1⟩⟩⟩
    ∧ ¬ (100 < 100) := ⟨rfl, by omega⟩

/-- Claim C1 (amended): `AccessToken::verify` succeeds if and only if
the credential decodes as an HS256 JWT whose signature verifies against
the access-token secret, whose claims deserialize, and whose claims
carry a numeric `expires_at` with current time at most `expires_at`
(default validation rejects claims lacking `expires_at`, and the
boundary instant `current time = expires_at` still verifies); for an
access token issued at `issued_at` with the access TTL, verification
succeeds at `issued_at + TTL - 1` and fails at `issued_at + TTL + 1`. -/
theorem claim_C1_verify_characterization (env : Env) (now : Nat) (tok : TokenStr) :
    ((∃ t, AccessToken.verify env now tok = .ok t) ↔
      ∃ payload c e,
        tok = .jwt .HS256 payload (hmac_sign (AccessToken.secret env) .HS256 payload)
        ∧ Claims.fromJson payload = some c
        ∧ payload.lookupField "exp" = some (.jnum e)
        ∧ now ≤ e)
    ∧ ∀ (email : String) (rid : ResourceId) (iat : Nat),
        (∃ t, AccessToken.verify env (iat + 604800 - 1)
          ((TokenResponse.with_user_data env iat email rid).access_token) = .ok t)
        ∧ ∀ t, AccessToken.verify env (iat + 604800 + 1)
            ((TokenResponse.with_user_data env iat email rid).access_token) ≠ .ok t := by
  constructor
  · constructor
    · rintro ⟨t, ht⟩
      cases tok with
      | malformed s =>
        simp [AccessToken.verify, Token.decode_claims, jwt_decode] at ht
      | jwt alg payload sig =>
        cases alg with
        | RS256 =>
          simp [AccessToken.verify, Token.decode_claims, jwt_decode,
            validationAlgorithms] at ht
        | HS256 =>
          by_cases hsig : sig = hmac_sign (AccessToken.secret env) .HS256 payload
          · subst hsig
            cases hde : Claims.fromJson payload with
            | none =>
              simp [AccessToken.verify, Token.decode_claims, jwt_decode,
                validationAlgorithms, hde] at ht
            | some c =>
              cases hexp : payload.lookupField "exp" with
              | none =>
                simp [AccessToken.verify, Token.decode_claims, jwt_decode,
                  jwt_validate, validationAlgorithms, hde, hexp] at ht
              | some v =>
                cases v with
                | jnum e =>
                  by_cases hlt : e < now
                  · simp [AccessToken.verify, Token.decode_claims, jwt_decode,
                      jwt_validate, validationAlgorithms, hde, hexp, hlt] at ht
                  · exact ⟨payload, c, e, rfl, hde, hexp, by omega⟩
                | jstr s =>
                  simp [AccessToken.verify, Token.decode_claims, jwt_decode,
                    jwt_validate, validationAlgorithms, hde, hexp] at ht
                | jbool b =>
                  simp [AccessToken.verify, Token.decode_claims, jwt_decode,
                    jwt_validate, validationAlgorithms, hde, hexp] at ht
                | jnull =>
                  simp [AccessToken.verify, Token.decode_claims, jwt_decode,
                    jwt_validate, validationAlgorithms, hde, hexp] at ht
                | fnil =>
                  simp [AccessToken.verify, Token.decode_claims, jwt_decode,
                    jwt_validate, validationAlgorithms, hde, hexp] at ht
                | fcons k val rest =>
                  simp [AccessToken.verify, Token.decode_claims, jwt_decode,
                    jwt_validate, validationAlgorithms, hde, hexp] at ht
                | jobj fields =>
                  simp [AccessToken.verify, Token.decode_claims, jwt_decode,
                    jwt_validate, validationAlgorithms, hde, hexp] at ht
          · simp [AccessToken.verify, Token.decode_claims, jwt_decode,
              validationAlgorithms, hsig] at ht
    · rintro ⟨payload, c, e, rfl, hde, hexp, hle⟩
      refine ⟨⟨c⟩, ?_⟩
      simp [AccessToken.verify, Token.decode_claims, jwt_decode, jwt_validate,
        validationAlgorithms, hde, hexp, Nat.not_lt.mpr hle]
  · intro email rid iat
    constructor
    · refine ⟨⟨⟨email, iat, some (iat + 604800), rid⟩⟩, ?_⟩
      rw [verify_with_user_data_access, if_neg (by omega)]
    · intro t h
      rw [verify_with_user_data_access, if_pos (by omega)] at h
      exact Except.noConfusion h

/-- Witness for the amended claim C1 at a concrete issuance: the access
token issued at time 0 verifies at the pre-expiry boundary
`0 + TTL - 1`. -/
theorem claim_C1_witness :
    ∃ t, AccessToken.verify ⟨"access-secret", "refresh-secret"⟩ (0 + 604800 - 1)
      ((TokenResponse.with_user_data ⟨"access-secret", "refresh-secret"⟩ 0
        "e@moodup.team" ⟨42⟩).access_token) = .ok t :=
  ((claim_C1_verify_characterization ⟨"access-secret", "refresh-secret"⟩ 0
    (TokenStr.malformed "irrelevant")).2 "e@moodup.team" ⟨42⟩ 0).1

/-- Claim C2: issuing a session for an email and resource identifier and
verifying the returned access token before the access TTL elapses
succeeds, and the verified claims carry the original subject and
resource identifier. -/
theorem claim_C2_issue_verify_roundtrip (env : Env) (email : String)
    (rid : ResourceId) (iat now : Nat) (h : now < iat + 604800) :
    ∃ t : AccessToken,
      AccessToken.verify env now
          ((TokenResponse.with_user_data env iat email rid).access_token)
        = .ok t
      ∧ t.claims.sub = email ∧ t.resource_id = rid := by
  refine ⟨⟨⟨email, iat, some (iat + 604800), rid⟩⟩, ?_, rfl, rfl⟩
  rw [verify_with_user_data_access, if_neg (by omega)]

/-- Witness for claim C2 at a concrete issuance: issuing for
`e@moodup.team` with resource id 42 at time 0 and verifying at time 0
yields claims with the original subject and resource id. -/
theorem claim_C2_witness :
    (0 : Nat) < 0 + 604800
    ∧ ∃ t : AccessToken,
        AccessToken.verify ⟨"access-secret", "refresh-secret"⟩ 0
            ((TokenResponse.with_user_data ⟨"access-secret", "refresh-secret"⟩ 0
              "e@moodup.team" ⟨42⟩).access_token)
          = .ok t
        ∧ t.claims.sub = "e@moodup.team" ∧ t.resource_id = ⟨42⟩ :=
  ⟨by omega,
    claim_C2_issue_verify_roundtrip ⟨"access-secret", "refresh-secret"⟩
      "e@moodup.team" ⟨42⟩ 0 0 (by omega)⟩

/-- Claim C5: when the access and refresh signing secrets differ,
verifying the refresh token of an issued session against the
access-token secret fails with a `DecodingError` (an invalid
signature). -/
theorem claim_C5_cross_not_verifiable (env : Env) (email : String)
    (rid : ResourceId) (iat now : Nat)
    (h : AccessToken.secret env ≠ RefreshToken.secret env) :
    AccessToken.verify env now
        ((TokenResponse.with_user_data env iat email rid).refresh_token)
      = .error (TokenError.decodingError .invalidSignature) := by
  have hne : hmac_sign (RefreshToken.secret env) .HS256
        (Claims.toJson ⟨email, iat, none, rid⟩)
      ≠ hmac_sign (AccessToken.secret env) .HS256
        (Claims.toJson ⟨email, iat, none, rid⟩) := by
    intro hcon
    exact h (congrArg Sig.key hcon).symm
  unfold TokenResponse.with_user_data RefreshToken.encode Token.encode_claims
    jwt_encode AccessToken.verify Token.decode_claims jwt_decode
  simp [validationAlgorithms, hne]

/-- Witness for claim C5 at concrete distinct secrets. -/
theorem claim_C5_witness :
    AccessToken.secret ⟨"access-secret", "refresh-secret"⟩
        ≠ RefreshToken.secret ⟨"access-secret", "refresh-secret"⟩
    ∧ AccessToken.verify ⟨"access-secret", "refresh-secret"⟩ 7
        ((TokenResponse.with_user_data ⟨"access-secret", "refresh-secret"⟩ 3
          "e@moodup.team" ⟨42⟩).refresh_token)
      = .error (TokenError.decodingError .invalidSignature) :=
  ⟨by decide,
    claim_C5_cross_not_verifiable ⟨"access-secret", "refresh-secret"⟩
      "e@moodup.team" ⟨42⟩ 3 7 (by decide)⟩

/-- Claim C9: every issuance signs, under the kind-specific secrets, an
access-claims value and a refresh-claims value that agree on subject,
issue time and resource id, where the access claims carry
`expires_at = Some(issued_at + TTL)` and the refresh claims are the
access claims with `expires_at` absent. -/
theorem claim_C9_claims_relationship (env : Env) (email : String)
    (rid : ResourceId) (iat : Nat) :
    ∃ access_claims refresh_claims : Claims,
      (TokenResponse.with_user_data env iat email rid).access_token
          = Token.encode_claims (AccessToken.secret env) access_claims
      ∧ (TokenResponse.with_user_data env iat email rid).refresh_token
          = Token.encode_claims (RefreshToken.secret env) refresh_claims
      ∧ refresh_claims = { access_claims with exp := none }
      ∧ access_claims.exp = some (iat + 604800)
      ∧ refresh_claims.exp = none
      ∧ access_claims.sub = email ∧ refresh_claims.sub = email
      ∧ access_claims.iat = iat ∧ refresh_claims.iat = iat
      ∧ access_claims.resource_id = rid ∧ refresh_claims.resource_id = rid :=
  ⟨⟨email, iat, some (iat + 604800), rid⟩, ⟨email, iat, none, rid⟩,
    rfl, rfl, rfl, rfl, rfl, rfl, rfl, rfl, rfl, rfl, rfl⟩

/-- Counterexample to claim C8 as stated: with a verified
`b@moodup.team` identity and a directory returning no match, the login
mutation's error message is "No Teamdeck account found with
`b@moodup.team` email" (with the word "Teamdeck" and backticks around
the email), which is not the claimed string "No account found with
b@moodup.team email". -/
theorem claim_C8_counterexample :
    login_with_google ⟨"access-secret", "refresh-secret"⟩ 0
        (.ok ⟨some (.jwt .HS256
          (.jobj (.fcons "email" (.jstr "b@moodup.team")
            (.fcons "email_verified" (.jbool true)
              (.fcons "hd" (.jstr "moodup.team") .fnil))))
          ⟨"provider-key", .HS256, .jnull⟩)⟩)
        (fun _ => .ok none)
      = .error "No Teamdeck account found with `b@moodup.team` email"
    ∧ "No Teamdeck account found with `b@moodup.team` email"
        ≠ "No account found with b@moodup.team email" :=
  ⟨rfl, by decide⟩

/-- Claim C8 (amended): when the code exchange succeeds, identity
verification succeeds with some email, and the resource directory
returns no match for that email, `login_with_google` returns the
structured error "No Teamdeck account found with `<email>` email" (the
verified email interpolated in backticks) and does not issue a token. -/
theorem claim_C8_no_account_message (env : Env) (now : Nat)
    (exchange_code_for_token : Except String GoogleTokenResponse)
    (get_resource_by_email : String → Except String (Option Resource))
    (google_token : GoogleTokenResponse) (email : String)
    (hex : exchange_code_for_token = .ok google_token)
    (hemail : google_token.email = .ok email)
    (hdir : get_resource_by_email email = .ok none) :
    login_with_google env now exchange_code_for_token get_resource_by_email
      = .error ("No Teamdeck account found with `" ++ email ++ "` email") := by
  subst hex
  simp [login_with_google, hemail, hdir]

/-- Witness for the amended claim C8 at a concrete exchange: a verified
`c@moodup.team` identity with an empty directory produces the "no
account" error. -/
theorem claim_C8_witness :
    login_with_google ⟨"access-secret", "refresh-secret"⟩ 5
        (.ok ⟨some (.jwt .HS256
          (.jobj (.fcons "email" (.jstr "c@moodup.team")
            (.fcons "email_verified" (.jbool true)
              (.fcons "hd" (.jstr "moodup.team") .fnil))))
          ⟨"provider-key", .HS256, .jnull⟩)⟩)
        (fun _ => .ok none)
      = .error ("No Teamdeck account found with `" ++ "c@moodup.team" ++ "` email") :=
  claim_C8_no_account_message ⟨"access-secret", "refresh-secret"⟩ 5 _ _
    ⟨some (.jwt .HS256
      (.jobj (.fcons "email" (.jstr "c@moodup.team")
        (.fcons "email_verified" (.jbool true)
          (.fcons "hd" (.jstr "moodup.team") .fnil))))
      ⟨"provider-key", .HS256, .jnull⟩)⟩
    "c@moodup.team" rfl rfl rfl

/-- An all-whitespace character list splits into no chunks. -/
theorem split_ws_aux_all_whitespace (l : List Char)
    (h : ∀ c ∈ l, c.isWhitespace) : split_ws_aux l [] = [] := by
  induction l with
  | nil => rfl
  | cons c rest ih =>
    unfold split_ws_aux
    rw [if_pos (h c (List.mem_cons_self c rest))]
    simpa using ih (fun x hx => h x (List.mem_cons_of_mem c hx))

/-- Claim C10: `get_token` returns the last whitespace-separated chunk
of the Authorization header value with no scheme check; an absent
header attaches nothing; an empty or all-whitespace value (or a last
chunk that fails verification) leaves the request exactly as if the
header were absent; and any value whose last chunk verifies as an
access token — a bare token without a "Bearer " prefix included —
authenticates the request, attaching the verified token and its
resource id. -/
theorem claim_C10_bearer_extraction (env : Env) (now : Nat)
    (parse : String → TokenStr) (v : String) :
    get_token (some v) = (split_whitespace v).getLast?
    ∧ index env now parse none = ⟨none, none⟩
    ∧ ((∀ c ∈ v.data, c.isWhitespace) →
        index env now parse (some v) = index env now parse none)
    ∧ (∀ t, (split_whitespace v).getLast? = some t →
        (AccessToken.verify env now (parse t)).toOption = none →
        index env now parse (some v) = index env now parse none)
    ∧ (∀ t tok, (split_whitespace v).getLast? = some t →
        AccessToken.verify env now (parse t) = .ok tok →
        index env now parse (some v) = ⟨some tok, some tok.resource_id⟩) := by
  refine ⟨rfl, rfl, ?_, ?_, ?_⟩
  · intro h
    have hempty : split_whitespace v = [] := by
      unfold split_whitespace
      rw [split_ws_aux_all_whitespace v.data h]
      rfl
    simp [index, get_token, hempty]
  · intro t ht hv
    simp [index, get_token, ht, hv]
  · intro t tok ht hv
    simp [index, get_token, ht, hv, Except.toOption]

/-- Witness for claim C10 at a concrete request: a bare token value with
no "Bearer " prefix, whose single chunk verifies, authenticates the
request. -/
theorem claim_C10_witness :
    (split_whitespace "sometoken").getLast? = some "sometoken"
    ∧ AccessToken.verify ⟨"access-secret", "refresh-secret"⟩ 3
        ((fun _ => Token.encode_claims "access-secret"
          ⟨"e@moodup.team", 0, some 10, ⟨1⟩⟩) "sometoken")
      = .ok ⟨⟨"e@moodup.team", 0, some 10, ⟨1⟩⟩⟩
    ∧ index ⟨"access-secret", "refresh-secret"⟩ 3
        (fun _ => Token.encode_claims "access-secret"
          ⟨"e@moodup.team", 0, some 10, ⟨1⟩⟩)
        (some "sometoken")
      = ⟨some ⟨⟨"e@moodup.team", 0, some 10, ⟨1⟩⟩⟩, some ⟨1⟩⟩ :=
  ⟨rfl, rfl,
    (claim_C10_bearer_extraction ⟨"access-secret", "refresh-secret"⟩ 3
      (fun _ => Token.encode_claims "access-secret"
        ⟨"e@moodup.team", 0, some 10, ⟨1⟩⟩) "sometoken").2.2.2.2
      "sometoken" ⟨⟨"e@moodup.team", 0, some 10, ⟨1⟩⟩⟩ rfl rfl⟩

end TeamdeckTracker
